import Mathlib

/-!
Verification of the LXC task driver's container-configuration and
lifecycle code (`lxc/driver.go` plus the configuration file of the same
package).  The Go code is shallowly embedded: effectful native-runtime
calls (liblxc, the filesystem, msgpack encoding) are modelled by an
explicit environment `Env` of call outcomes, and every run of a driver
operation yields its result together with the ordered trace of native
calls it attempted.

String primitives used by the Go code (`strings.Split`, `strings.TrimLeft`,
`strings.HasPrefix`, `path/filepath` functions) are implemented here by
structural recursion over character lists so that every definition is
kernel-evaluable on concrete inputs.
-/

namespace NomadLXC

/-- Decidable equality for `Except`, used to evaluate driver results on
concrete inputs. -/
instance exceptDecEq {ε α : Type} [DecidableEq ε] [DecidableEq α] :
    DecidableEq (Except ε α) := fun x y =>
  match x, y with
  | .ok a, .ok b =>
    if h : a = b then .isTrue (by rw [h]) else .isFalse (by simp [h])
  | .error a, .error b =>
    if h : a = b then .isTrue (by rw [h]) else .isFalse (by simp [h])
  | .ok _, .error _ => .isFalse (by simp)
  | .error _, .ok _ => .isFalse (by simp)

/-! ## String primitives (Go `strings` package subset) -/

/-- Split a character list at every occurrence of `sep`. -/
def splitCharsAux (sep : Char) : List Char → List Char → List String
  | cur, [] => [String.mk cur.reverse]
  | cur, c :: rest =>
    if c = sep then String.mk cur.reverse :: splitCharsAux sep [] rest
    else splitCharsAux sep (c :: cur) rest

/-- Go's `strings.Split` with a one-character separator. -/
def splitOnChar (sep : Char) (s : String) : List String :=
  splitCharsAux sep [] s.data

/-- Whether the first list is an initial segment of the second. -/
def charsLead : List Char → List Char → Bool
  | [], _ => true
  | _ :: _, [] => false
  | p :: ps, c :: cs => p = c && charsLead ps cs

/-- Go's `strings.HasPrefix pre s` (does `s` start with `pre`). -/
def strLeads (pre s : String) : Bool := charsLead pre.data s.data

/-- Go's `strings.TrimLeft s "/"`. -/
def trimLeftSlashes (s : String) : String :=
  String.mk (s.data.dropWhile (fun c => c = '/'))

/-- `strings.Join`-style interleaving with a one-character separator
(the inverse of `splitOnChar`). -/
def joinComps (sep : Char) : List String → String
  | [] => ""
  | [s] => s
  | s :: rest => s ++ String.mk [sep] ++ joinComps sep rest

/-! ## Go `path/filepath` model (Unix rules, as used by the driver) -/

/-- `filepath.IsAbs` on Unix: the path starts with a slash. -/
def goIsAbs (p : String) : Bool := strLeads "/" p

/-- Component processing of Go's `filepath.Clean`: empty and `.` components
are dropped; `..` pops the last real component, is absorbed by the root of a
rooted path, and is kept at the front of an unrooted path. -/
def cleanAux (rooted : Bool) : List String → List String → List String
  | acc, [] => acc.reverse
  | acc, c :: rest =>
    if c = "" ∨ c = "." then cleanAux rooted acc rest
    else if c = ".." then
      match acc with
      | [] => if rooted then cleanAux rooted [] rest else cleanAux rooted [".."] rest
      | top :: tail =>
        if top = ".." then cleanAux rooted (".." :: top :: tail) rest
        else cleanAux rooted tail rest
    else cleanAux rooted (c :: acc) rest

/-- Go's `filepath.Clean` (Unix). -/
def goClean (p : String) : String :=
  let rooted := goIsAbs p
  let comps := cleanAux rooted [] (splitOnChar '/' p)
  if rooted then "/" ++ joinComps '/' comps
  else if comps = [] then "." else joinComps '/' comps

/-- Go's `filepath.Join` restricted to two arguments: empty elements are
skipped and the result is cleaned. -/
def goJoin (a b : String) : String :=
  if a = "" ∧ b = "" then ""
  else if a = "" then goClean b
  else if b = "" then goClean a
  else goClean (a ++ "/" ++ b)

/-- Splitting a cleaned, root-stripped path into components; the empty
string has no components. -/
def splitComps (s : String) : List String :=
  if s = "" then [] else splitOnChar '/' s

/-- Drop the leading slash of a rooted path. -/
def stripRoot (s : String) : String :=
  match s.data with
  | '/' :: rest => String.mk rest
  | _ => s

/-- The element-wise comparison loop of Go's `filepath.Rel` on cleaned
component lists: consume the common prefix; at the first difference a `..`
base component is an error, otherwise one `..` per remaining base component
precedes the remaining target components. -/
def relComps : List String → List String → Option (List String)
  | [], ts => some ts
  | b :: bs, [] => if b = ".." then none else some (List.replicate (bs.length + 1) "..")
  | b :: bs, t :: ts =>
    if b = t then relComps bs ts
    else if b = ".." then none
    else some (List.replicate (bs.length + 1) ".." ++ t :: ts)

/-- Go's `filepath.Rel` (Unix, no volume names): `none` models the error
return. -/
def goRel (basep targp : String) : Option String :=
  let base := goClean basep
  let targ := goClean targp
  if targ = base then some "."
  else
    let base := if base = "." then "" else base
    if goIsAbs base ≠ goIsAbs targ then none
    else
      match relComps (splitComps (stripRoot base)) (splitComps (stripRoot targ)) with
      | none => none
      | some cs => some (joinComps '/' cs)

/-- `pathEscapesSandbox` from the source: the path escapes when
`filepath.Rel` fails or the relative path begins with `..`. -/
def pathEscapesSandbox (sandboxDir path : String) : Bool :=
  match goRel sandboxDir path with
  | none => true
  | some rel => strLeads ".." rel

/-! ## Enumerated options -/

/-- go-lxc verbosity values. -/
inductive Verbosity
  | Quiet
  | Verbose
deriving DecidableEq

/-- go-lxc log levels. -/
inductive LogLevel
  | TRACE
  | DEBUG
  | INFO
  | WARN
  | ERROR
deriving DecidableEq

/-- The `verbosityLevels` map of the source, as a lookup function. -/
def verbosityLevels : String → Option Verbosity
  | "" => some .Quiet
  | "verbose" => some .Verbose
  | "quiet" => some .Quiet
  | _ => none

/-- The `logLevels` map of the source, as a lookup function. -/
def logLevels : String → Option LogLevel
  | "" => some .ERROR
  | "debug" => some .DEBUG
  | "error" => some .ERROR
  | "info" => some .INFO
  | "trace" => some .TRACE
  | "warn" => some .WARN
  | _ => none

/-! ## Data model -/

/-- `drivers.MountConfig` (external Nomad type), the fields the driver reads. -/
structure MountConfig where
  HostPath : String
  TaskPath : String
  Readonly : Bool
deriving DecidableEq

/-- `drivers.DeviceConfig` (external Nomad type), the fields the driver reads. -/
structure DeviceConfig where
  HostPath : String
  TaskPath : String
  Permissions : String
deriving DecidableEq

/-- The resource requests the driver reads:
`Resources.NomadResources.Memory.MemoryMB` (an `int64` count of megabytes)
and `Resources.LinuxResources.CPUShares` (an `int64`). -/
structure Resources where
  MemoryMB : Int
  CPUShares : Int
deriving DecidableEq

/-- The task directory layout `cfg.TaskDir()` (external Nomad type). -/
structure TaskDirCfg where
  Dir : String
  LocalDir : String
  SharedAllocDir : String
  SecretsDir : String
deriving DecidableEq

/-- `drivers.TaskConfig` (external Nomad type), the fields the driver reads. -/
structure DriversTaskConfig where
  ID : String
  Name : String
  AllocID : String
  Env : List (String × String)
  Resources : Resources
  Mounts : List MountConfig
  Devices : List DeviceConfig
  TaskDir : TaskDirCfg
deriving DecidableEq

/-- `GCConfig` from the source. -/
structure GCConfig where
  Container : Bool := true
deriving DecidableEq

/-- `Config`, the driver configuration, with the defaults of `configSpec`. -/
structure Config where
  Enabled : Bool := true
  AllowVolumes : Bool := true
  DefaultConfig : String := "/etc/lxc/default.conf"
  LXCPath : String := ""
  NetworkMode : String := "bridge"
  GC : GCConfig := {}
deriving DecidableEq

/-- `TaskConfig`, the per-task driver configuration block from the source. -/
structure TaskConfig where
  Template : String := ""
  Distro : String := ""
  Release : String := ""
  Arch : String := ""
  ImageVariant : String := ""
  ImageServer : String := ""
  GPGKeyID : String := ""
  GPGKeyServer : String := ""
  DisableGPGValidation : Bool := false
  FlushCache : Bool := false
  ForceCache : Bool := false
  TemplateArgs : List String := []
  LogLevel : String := ""
  Verbosity : String := ""
  Volumes : List String := []
  NetworkMode : String := ""
  DefaultConfig : String := ""
  Command : List String := []
  Environment : List String := []
  Cgroup : String := ""
  PortMap : List (String × Int) := []
deriving DecidableEq

/-- The model of a go-lxc `*lxc.Container`: identity plus the configuration
the driver has successfully applied to it. -/
structure Container where
  name : String
  lxcpath : String
  verbosity : Option Verbosity := none
  logLevel : Option LogLevel := none
  logFile : Option String := none
  configItems : List (String × String) := []
  loadedConfig : Option String := none
deriving DecidableEq

/-- `TaskState`, the driver state persisted in the task handle. -/
structure TaskState where
  TaskConfig : DriversTaskConfig
  ContainerName : String
  StartedAt : Int
deriving DecidableEq

/-- `taskHandleVersion` from the source. -/
def taskHandleVersion : Nat := 1

/-- `drivers.TaskHandle` (external plugin type): schema version, the task
config, and the encoded driver state; `SetDriverState`/`GetDriverState`
are modelled as storing and retrieving the `TaskState` value. -/
structure DriversTaskHandle where
  Version : Nat
  Config : DriversTaskConfig
  driverState : Option TaskState := none
deriving DecidableEq

/-- `drivers.TaskState...` lifecycle states (external plugin type). -/
inductive LifecycleState
  | Running
  | Exited
  | Unknown
deriving DecidableEq

/-- Modelled from the spec: the repository's `taskHandle` type is defined in
a file not among the given sources; per the spec's Task Handle component it
owns one running container and holds its identity, init process id,
lifecycle state and start timestamp. -/
structure taskHandle where
  container : Container
  initPid : Int
  taskConfig : DriversTaskConfig
  procState : LifecycleState
  startedAt : Int
deriving DecidableEq

/-- Modelled from the spec: the repository's `taskStore` (its defining file
is not among the given sources) is a concurrency-safe map keyed by task ID
with `Set`, `Get` and `Delete`; it is modelled sequentially as an
association list with unique keys. -/
abbrev taskStore := List (String × taskHandle)

def taskStore.Get (s : taskStore) (id : String) : Option taskHandle :=
  (s.find? (fun kv => kv.1 = id)).map (·.2)

def taskStore.Set (s : taskStore) (id : String) (h : taskHandle) : taskStore :=
  s.filter (fun kv => kv.1 ≠ id) ++ [(id, h)]

def taskStore.Delete (s : taskStore) (id : String) : taskStore :=
  s.filter (fun kv => kv.1 ≠ id)

/-- The driver fields the embedded operations read. -/
structure Driver where
  config : Config
  tasks : taskStore

/-! ## Environment of native-call outcomes

Each fallible external call (liblxc, filesystem, msgpack) is given its
outcome by the environment: `none` means the call succeeds, `some e` that
it fails with error text `e`. -/

structure Env where
  /-- `lxc.DefaultConfigPath()`. -/
  defaultLxcPath : String := "/var/lib/lxc"
  /-- Outcome of `lxc.NewContainer`. -/
  newContainerErr : Option String := none
  /-- Outcome of `c.SetLogLevel`. -/
  setLogLevelErr : Option String := none
  /-- Outcome of `c.SetLogFile`. -/
  setLogFileErr : Option String := none
  /-- Outcome of `c.SetConfigItem key value`. -/
  setConfigItemErr : String → String → Option String := fun _ _ => none
  /-- Outcome of `c.LoadConfigFile`. -/
  loadConfigErr : Option String := none
  /-- Outcome of `cfg.DecodeDriverConfig`. -/
  decodeErr : Option String := none
  /-- Outcome of `c.Create`. -/
  createErr : Option String := none
  /-- Outcome of `c.StartExecute`. -/
  startExecuteErr : Option String := none
  /-- Outcome of `c.SetCgroupItem key value`. -/
  setCgroupItemErr : String → String → Option String := fun _ _ => none
  /-- Outcome of `c.SetMemoryLimit`. -/
  setMemoryLimitErr : Option String := none
  /-- Outcome of `handle.SetDriverState`. -/
  setDriverStateErr : Option String := none
  /-- Value of `c.Running()` when the start-failure cleanup runs. -/
  running : Bool := false
  /-- Outcome of `c.Stop` during cleanup. -/
  stopErr : Option String := none
  /-- Outcome of `c.Destroy`. -/
  destroyErr : Option String := none
  /-- `os.Stat`: whether the host path exists and is a directory
  (`none` models a stat error). -/
  statIsDir : String → Option Bool := fun _ => some true
  /-- `lxc.VersionAtLeast(2, 1, 0)`. -/
  versionAtLeast210 : Bool := true
  /-- `ldevices.DeviceFromPath(path, perms)` followed by `CgroupString()`:
  the native cgroup-allow string, or the lookup error. -/
  deviceFromPath : String → String → Except String String := fun p _ => .ok p
  /-- `c.InitPid()`. -/
  initPid : Int := 1
  /-- `time.Now()` at start, rounded to a millisecond tick count. -/
  now : Int := 0
  /-- Modelled from the spec: result of `handle.IsRunning()` (the
  `taskHandle` methods are defined in a file not among the given sources). -/
  handleRunning : Bool := false
  /-- Modelled from the spec: outcome of `handle.shutdown(timeout)`. -/
  shutdownErr : Option String := none

/-! ## Native-call trace -/

/-- One attempted native call.  `create` is recorded only when `c.Create`
succeeds, so its presence in a trace marks that the container came to
exist on disk. -/
inductive Event
  | newContainer (name path : String)
  | setVerbosity (v : Verbosity)
  | setLogLevel (l : LogLevel)
  | setLogFile (f : String)
  | setConfigItem (key val : String)
  | loadConfigFile (path : String)
  | create
  | startExecute (cmd : List String)
  | setCgroupItem (key val : String)
  | setMemoryLimit (bytes : Int)
  | stop
  | shutdown
  | destroy
  | setDriverState
  | registerTask (id : String)
deriving DecidableEq

/-! ## Embedded driver operations -/

/-- `Driver.lxcPath` from the source: the configured storage path, else the
runtime default. -/
def Driver.lxcPath (env : Env) (d : Driver) : String :=
  if d.config.LXCPath = "" then env.defaultLxcPath else d.config.LXCPath

/-- One `c.SetConfigItem` call: the item is recorded on the container only
when the call succeeds; the attempt is always traced. -/
def setConfigItemE (env : Env) (c : Container) (k v : String) :
    Except String Container × List Event :=
  (match env.setConfigItemErr k v with
    | some e => .error e
    | none => .ok { c with configItems := c.configItems ++ [(k, v)] },
   [Event.setConfigItem k v])

/-- The `lxc.environment` loop bodies of `initializeContainer`: the source
ignores the return value of these `SetConfigItem` calls. -/
def setEnvItems (env : Env) (c : Container) : List String → Container × List Event
  | [] => (c, [])
  | e :: rest =>
    let (rc, ev) := setConfigItemE env c "lxc.environment" e
    let c' := match rc with | .ok x => x | .error _ => c
    let (c'', ev') := setEnvItems env c' rest
    (c'', ev ++ ev')

/-- `initializeContainer` from the source, in source order: create the
container object, validate and set verbosity and log level, set the log
file, set the cgroup directory, append environment directives, and finally
load the base configuration file (a load failure is only a warning). -/
def initializeContainer (env : Env) (d : Driver) (cfg : DriversTaskConfig)
    (taskConfig : TaskConfig) : Except String Container × List Event :=
  let lxcPath := d.lxcPath env
  let containerName := cfg.Name ++ "-" ++ cfg.AllocID
  match env.newContainerErr with
  | some e => (.error ("failed to initialize container: " ++ e), [])
  | none =>
    let c : Container := { name := containerName, lxcpath := lxcPath }
    let ev0 := [Event.newContainer containerName lxcPath]
    match verbosityLevels taskConfig.Verbosity with
    | none =>
      (.error "lxc driver config 'verbosity' can only be either quiet or verbose", ev0)
    | some v =>
      let c := { c with verbosity := some v }
      let ev1 := ev0 ++ [Event.setVerbosity v]
      match logLevels taskConfig.LogLevel with
      | none =>
        (.error "lxc driver config 'log_level' can only be trace, debug, info, warn or error",
         ev1)
      | some lv =>
        let ev2 := ev1 ++ [Event.setLogLevel lv]
        match env.setLogLevelErr with
        | some e => (.error e, ev2)
        | none =>
          let c := { c with logLevel := some lv }
          let logFile := goJoin cfg.TaskDir.Dir (cfg.Name ++ "-lxc.log")
          let ev3 := ev2 ++ [Event.setLogFile logFile]
          match env.setLogFileErr with
          | some e => (.error e, ev3)
          | none =>
            let c := { c with logFile := some logFile }
            let (rc, evCg) := setConfigItemE env c "lxc.cgroup.dir" taskConfig.Cgroup
            let c := match rc with | .ok x => x | .error _ => c
            let (c, evE1) := setEnvItems env c taskConfig.Environment
            let (c, evE2) := setEnvItems env c (cfg.Env.map (fun kv => kv.1 ++ "=" ++ kv.2))
            let defaultConfig :=
              if taskConfig.DefaultConfig = "" then d.config.DefaultConfig
              else taskConfig.DefaultConfig
            let evL := [Event.loadConfigFile defaultConfig]
            let c :=
              match env.loadConfigErr with
              | some _ => c
              | none => { c with loadedConfig := some defaultConfig }
            (.ok c, ev3 ++ evCg ++ evE1 ++ evE2 ++ evL)

/-- `networkTypeConfigPrefix` from the source (renamed): the lxc network
key stem, depending on the installed runtime version. -/
def networkTypeConfigPfx (env : Env) : String :=
  if env.versionAtLeast210 then "lxc.net.0." else "lxc.network."

/-- `configureContainerNetwork` from the source: resolve the mode
(task-level, else driver default), then emit the directives for `host` or
`bridge`; any other mode is an error. -/
def configureContainerNetwork (env : Env) (d : Driver) (c : Container)
    (taskConfig : TaskConfig) : Except String Container × List Event :=
  let mode := if taskConfig.NetworkMode = "" then d.config.NetworkMode
              else taskConfig.NetworkMode
  let pfx := networkTypeConfigPfx env
  if mode = "host" then
    match setConfigItemE env c (pfx ++ "type") "none" with
    | (.error e, ev) => (.error ("error setting network type configuration 'none': " ++ e), ev)
    | (.ok c, ev) => (.ok c, ev)
  else if mode = "bridge" then
    match setConfigItemE env c (pfx ++ "type") "veth" with
    | (.error e, ev) => (.error ("error setting network type configuration 'veth': " ++ e), ev)
    | (.ok c, ev) =>
      match setConfigItemE env c (pfx ++ "link") "lxcbr0" with
      | (.error e, ev2) => (.error ("error setting network link configuration: " ++ e), ev ++ ev2)
      | (.ok c, ev2) =>
        match setConfigItemE env c (pfx ++ "flags") "up" with
        | (.error e, ev3) => (.error ("error setting network flags configuration: " ++ e), ev ++ ev2 ++ ev3)
        | (.ok c, ev3) => (.ok c, ev ++ ev2 ++ ev3)
  else (.error "Network mode is undefined", [])

/-- `formatMount` from the source: stat the host path to pick `dir`/`file`
(defaulting to `dir` on a stat error), derive `ro`/`rw`, and strip leading
slashes from the target. -/
def formatMount (env : Env) (hostPath taskPath : String) (readOnly : Bool) : String :=
  let typ := match env.statIsDir hostPath with
    | none => "dir"
    | some true => "dir"
    | some false => "file"
  let perm := if readOnly then "ro" else "rw"
  let target := trimLeftSlashes taskPath
  hostPath ++ " " ++ target ++ " none " ++ perm ++ ",bind,create=" ++ typ

/-- `formatTaskMounts` from the source. -/
def formatTaskMounts (env : Env) (mounts : List MountConfig) : List String :=
  mounts.map (fun m => formatMount env m.HostPath m.TaskPath m.Readonly)

/-- `formatTaskDevices` from the source: read-only iff the permission
string has no `w`. -/
def formatTaskDevices (env : Env) (devices : List DeviceConfig) : List String :=
  devices.map (fun m =>
    formatMount env m.HostPath m.TaskPath (!(m.Permissions.data.contains 'w')))

/-- The user-volume loop of `mountEntries`.  Each volume string is split at
`:` into source, target, mode and type.  An absolute source is rejected
when volumes are disabled; a relative source is joined to the task
directory and, when volumes are disabled, rejected if it escapes the
sandbox.  (The source indexes the split unconditionally — the format was
checked upstream in `Validate()` — so a short split is modelled as an
error.) -/
def volumeMounts (volumesEnabled : Bool) (taskDirDir : String) :
    List String → Except String (List String)
  | [] => .ok []
  | volDesc :: rest =>
    match splitOnChar ':' volDesc with
    | src :: tgt :: mode :: ty :: _ =>
      let srcRes : Except String String :=
        if goIsAbs src then
          if !volumesEnabled then
            .error "absolute bind-mount volume in config but volumes are disabled"
          else .ok src
        else
          let j := goJoin taskDirDir src
          if !volumesEnabled && pathEscapesSandbox taskDirDir j then
            .error "bind-mount path escapes task directory but volumes are disabled"
          else .ok j
      match srcRes with
      | .error e => .error e
      | .ok s =>
        let target := trimLeftSlashes tgt
        match volumeMounts volumesEnabled taskDirDir rest with
        | .error e => .error e
        | .ok ms =>
          .ok ((s ++ " " ++ target ++ " none " ++ mode ++ ",bind,create=" ++ ty) :: ms)
    | _ => .error "volume string is not of the form source:target:mode:type"

/-- `mountEntries` from the source: the three fixed bind mounts, then the
task mounts, then the task devices, then the user volumes. -/
def mountEntries (env : Env) (d : Driver) (cfg : DriversTaskConfig)
    (taskConfig : TaskConfig) : Except String (List String) :=
  let mounts := [
    cfg.TaskDir.LocalDir ++ " local none rw,bind,create=dir",
    cfg.TaskDir.SharedAllocDir ++ " alloc none rw,bind,create=dir",
    cfg.TaskDir.SecretsDir ++ " secrets none rw,bind,create=dir"]
  let mounts := mounts ++ formatTaskMounts env cfg.Mounts
  let mounts := mounts ++ formatTaskDevices env cfg.Devices
  match volumeMounts d.config.AllowVolumes cfg.TaskDir.Dir taskConfig.Volumes with
  | .error e => .error e
  | .ok vs => .ok (mounts ++ vs)

/-- `devicesCgroupEntries` from the source: one native cgroup-allow string
per device; any resolution failure is fatal. -/
def devicesCgroupEntries (env : Env) : List DeviceConfig → Except String (List String)
  | [] => .ok []
  | dv :: rest =>
    match env.deviceFromPath dv.HostPath dv.Permissions with
    | .error e => .error e
    | .ok s =>
      match devicesCgroupEntries env rest with
      | .error e => .error e
      | .ok ss => .ok (s :: ss)

/-- The `lxc.mount.entry` loop of `mountVolumes`. -/
def setMountEntriesLoop (env : Env) (c : Container) :
    List String → Except String Container × List Event
  | [] => (.ok c, [])
  | m :: rest =>
    match setConfigItemE env c "lxc.mount.entry" m with
    | (.error e, ev) =>
      (.error ("error setting bind mount \"" ++ m ++ "\" error: " ++ e), ev)
    | (.ok c', ev) =>
      let (r, ev2) := setMountEntriesLoop env c' rest
      (r, ev ++ ev2)

/-- The `lxc.cgroup.devices.allow` loop of `mountVolumes`. -/
def setCgroupDevLoop (env : Env) (c : Container) :
    List String → Except String Container × List Event
  | [] => (.ok c, [])
  | m :: rest =>
    match setConfigItemE env c "lxc.cgroup.devices.allow" m with
    | (.error e, ev) =>
      (.error ("error setting cgroup permission \"" ++ m ++ "\" error: " ++ e), ev)
    | (.ok c', ev) =>
      let (r, ev2) := setCgroupDevLoop env c' rest
      (r, ev ++ ev2)

/-- `mountVolumes` from the source: plan the mount entries and the device
cgroup entries, then apply them to the container. -/
def mountVolumes (env : Env) (d : Driver) (c : Container) (cfg : DriversTaskConfig)
    (taskConfig : TaskConfig) : Except String Container × List Event :=
  match mountEntries env d cfg taskConfig with
  | .error e => (.error e, [])
  | .ok mounts =>
    match devicesCgroupEntries env cfg.Devices with
    | .error e => (.error e, [])
    | .ok devs =>
      match setMountEntriesLoop env c mounts with
      | (.error e, ev) => (.error e, ev)
      | (.ok c', ev) =>
        let (r, ev2) := setCgroupDevLoop env c' devs
        (r, ev ++ ev2)

/-! ## Resource limits

`setResourceLimits` computes `lxc.ByteSize(MemoryMB) * lxc.MB` where
`lxc.ByteSize` is a `float64` and `lxc.MB = 2^20`.  Converting the `int64`
megabyte count to `float64` rounds it to 53 significant bits
(round-to-nearest, ties to even); the subsequent multiplication by `2^20`
only shifts the exponent and is exact, and `fmt.Sprintf("%.f", ...)` prints
the resulting integral value exactly. -/

/-- Bit length of a natural number below `2^64` (the `int64` range of the
megabyte count), by fuelled halving. -/
def bitLenAux : Nat → Nat → Nat
  | 0, _ => 0
  | fuel + 1, n => if n = 0 then 0 else bitLenAux fuel (n / 2) + 1

def bitLen (n : Nat) : Nat := bitLenAux 64 n

/-- IEEE-754 round-to-nearest-even of a natural number to 53 significant
bits: the value of `float64(n)`. -/
def roundEven53 (n : Nat) : Nat :=
  if n < 2 ^ 53 then n
  else
    let k := bitLen n - 53
    let q := n / 2 ^ k
    let r := n % 2 ^ k
    let half := 2 ^ (k - 1)
    if half < r ∨ (r = half ∧ q % 2 = 1) then (q + 1) * 2 ^ k else q * 2 ^ k

/-- The exact integer value of the Go expression
`lxc.ByteSize(memoryMB) * lxc.MB`: the megabyte count rounded by the
`int64`-to-`float64` conversion, then scaled by `2^20`. -/
def memoryBytes (memoryMB : Int) : Int :=
  Int.sign memoryMB * (roundEven53 memoryMB.natAbs : Int) * 2 ^ 20

/-- `setResourceLimits` from the source: try `memory.max`, falling back to
`SetMemoryLimit` with the same byte value; then `cpu.weight`, falling back
to `cpu.shares` with the same share count; failure of both tiers of either
resource is an error. -/
def setResourceLimits (env : Env) (cfg : DriversTaskConfig) :
    Except String Unit × List Event :=
  let memStr := toString (memoryBytes cfg.Resources.MemoryMB)
  let ev1 := [Event.setCgroupItem "memory.max" memStr]
  let memRes : Except String Unit × List Event :=
    match env.setCgroupItemErr "memory.max" memStr with
    | none => (.ok (), ev1)
    | some _ =>
      let ev2 := ev1 ++ [Event.setMemoryLimit (memoryBytes cfg.Resources.MemoryMB)]
      match env.setMemoryLimitErr with
      | none => (.ok (), ev2)
      | some e => (.error ("unable to set memory limits: " ++ e), ev2)
  match memRes with
  | (.error e, ev) => (.error e, ev)
  | (.ok _, ev) =>
    let cpuStr := toString cfg.Resources.CPUShares
    let evA := ev ++ [Event.setCgroupItem "cpu.weight" cpuStr]
    match env.setCgroupItemErr "cpu.weight" cpuStr with
    | none => (.ok (), evA)
    | some _ =>
      let evB := evA ++ [Event.setCgroupItem "cpu.shares" cpuStr]
      match env.setCgroupItemErr "cpu.shares" cpuStr with
      | none => (.ok (), evB)
      | some e => (.error ("unable to set cpu shares: " ++ e), evB)

/-! ## Task lifecycle operations -/

/-- The `cleanup` closure of `StartTask`: stop the container if it is
running, then destroy it; errors of both calls are only logged. -/
def cleanupEvents (env : Env) : List Event :=
  (if env.running then [Event.stop] else []) ++ [Event.destroy]

/-- `StartTask` from the source: reject duplicate IDs, decode the driver
config, initialize the container object, create it on disk, then configure
networking, mounts, the init process and resource limits, persist the
driver state and register the handle.  Every failure after a successful
`Create` runs the cleanup before returning that step's error.  The result
is the handle (or error), the native-call trace, and the updated store. -/
def StartTask (env : Env) (d : Driver) (cfg : DriversTaskConfig)
    (driverConfig : TaskConfig) :
    Except String DriversTaskHandle × List Event × taskStore :=
  match d.tasks.Get cfg.ID with
  | some _ => (.error ("task with ID \"" ++ cfg.ID ++ "\" already started"), [], d.tasks)
  | none =>
    match env.decodeErr with
    | some e => (.error ("failed to decode driver config: " ++ e), [], d.tasks)
    | none =>
      let handle : DriversTaskHandle := { Version := taskHandleVersion, Config := cfg }
      match initializeContainer env d cfg driverConfig with
      | (.error e, ev) => (.error e, ev, d.tasks)
      | (.ok c, ev) =>
        match env.createErr with
        | some e => (.error e, ev, d.tasks)
        | none =>
          let ev := ev ++ [Event.create]
          match configureContainerNetwork env d c driverConfig with
          | (.error e, evN) => (.error e, ev ++ evN ++ cleanupEvents env, d.tasks)
          | (.ok c, evN) =>
            let ev := ev ++ evN
            match mountVolumes env d c cfg driverConfig with
            | (.error e, evM) => (.error e, ev ++ evM ++ cleanupEvents env, d.tasks)
            | (.ok c, evM) =>
              let ev := ev ++ evM ++ [Event.startExecute driverConfig.Command]
              match env.startExecuteErr with
              | some e =>
                (.error ("unable to start container: err " ++ e),
                 ev ++ cleanupEvents env, d.tasks)
              | none =>
                match setResourceLimits env cfg with
                | (.error e, evR) => (.error e, ev ++ evR ++ cleanupEvents env, d.tasks)
                | (.ok _, evR) =>
                  let ev := ev ++ evR
                  let h : taskHandle := {
                    container := c, initPid := env.initPid, taskConfig := cfg,
                    procState := .Running, startedAt := env.now }
                  let driverState : TaskState := {
                    ContainerName := c.name, TaskConfig := cfg, StartedAt := env.now }
                  match env.setDriverStateErr with
                  | some e =>
                    (.error ("failed to set driver state: " ++ e),
                     ev ++ [Event.setDriverState] ++ cleanupEvents env, d.tasks)
                  | none =>
                    (.ok { handle with driverState := some driverState },
                     ev ++ [Event.setDriverState, Event.registerTask cfg.ID],
                     d.tasks.Set cfg.ID h)

/-- Results of `RecoverTask`: success, the pre-0.9 compatibility path
(whose body is out of scope), or an error. -/
inductive RecoverResult
  | ok
  | pre09
  | err (msg : String)
deriving DecidableEq

/-- `RecoverTask` from the source: a nil handle is an error; a version-0
handle is routed to the pre-0.9 compatibility path; an already-registered
task ID returns success immediately; otherwise the persisted state is
decoded, a container reference re-created by name, and a `Running` handle
registered under the persisted task ID. -/
def RecoverTask (env : Env) (d : Driver) (handle : Option DriversTaskHandle) :
    RecoverResult × List Event × taskStore :=
  match handle with
  | none => (.err "error: handle cannot be nil", [], d.tasks)
  | some handle =>
    if handle.Version = 0 then (.pre09, [], d.tasks)
    else
      match d.tasks.Get handle.Config.ID with
      | some _ => (.ok, [], d.tasks)
      | none =>
        match handle.driverState with
        | none => (.err "failed to decode task state from handle", [], d.tasks)
        | some taskState =>
          match env.newContainerErr with
          | some e => (.err ("failed to create container ref: " ++ e), [], d.tasks)
          | none =>
            let c : Container := { name := taskState.ContainerName, lxcpath := d.lxcPath env }
            let h : taskHandle := {
              container := c, initPid := env.initPid,
              taskConfig := taskState.TaskConfig, procState := .Running,
              startedAt := taskState.StartedAt }
            (.ok,
             [Event.newContainer taskState.ContainerName (d.lxcPath env),
              Event.registerTask taskState.TaskConfig.ID],
             d.tasks.Set taskState.TaskConfig.ID h)

/-- `DestroyTask` from the source: unknown IDs are a not-found error; a
running task without `force` is an error and the store is untouched;
otherwise a running task is gracefully shut down (failure only logged), the
container is destroyed (failure only logged), and the store entry is
removed. -/
def DestroyTask (env : Env) (d : Driver) (taskID : String) (force : Bool) :
    Except String Unit × List Event × taskStore :=
  match d.tasks.Get taskID with
  | none => (.error "task not found for given id", [], d.tasks)
  | some _ =>
    if env.handleRunning && !force then
      (.error "cannot destroy running task", [], d.tasks)
    else
      let ev := (if env.handleRunning then [Event.shutdown] else []) ++ [Event.destroy]
      (.ok (), ev, d.tasks.Delete taskID)

/-! ## Helper lemmas -/

lemma verbosityLevels_eq_none (s : String) :
    verbosityLevels s = none ↔ s ∉ (["", "quiet", "verbose"] : List String) := by
  unfold verbosityLevels
  split <;> simp_all

lemma logLevels_eq_none (s : String) :
    logLevels s = none ↔ s ∉ (["", "trace", "debug", "info", "warn", "error"] : List String) := by
  unfold logLevels
  split <;> simp_all

lemma setEnvItems_trace (env : Env) (es : List String) : ∀ c : Container,
    (setEnvItems env c es).2 = es.map (fun e => Event.setConfigItem "lxc.environment" e) := by
  induction es with
  | nil => intro c; simp [setEnvItems]
  | cons e rest ih =>
    intro c
    simp only [setEnvItems, setConfigItemE]
    cases henv : env.setConfigItemErr "lxc.environment" e <;> simp [ih, List.map]

lemma create_not_mem_initializeContainer (env : Env) (d : Driver)
    (cfg : DriversTaskConfig) (tc : TaskConfig) :
    Event.create ∉ (initializeContainer env d cfg tc).2 := by
  unfold initializeContainer
  cases hn : env.newContainerErr <;>
    cases hv : verbosityLevels tc.Verbosity <;>
    cases hl : logLevels tc.LogLevel <;>
    cases hsl : env.setLogLevelErr <;>
    cases hsf : env.setLogFileErr <;>
    simp [setEnvItems_trace, setConfigItemE]

lemma taskStore.Get_Set_self (s : taskStore) (id : String) (h : taskHandle) :
    (s.Set id h).Get id = some h := by
  induction s with
  | nil => simp [taskStore.Set, taskStore.Get, List.find?]
  | cons kv rest ih =>
    by_cases hk : kv.1 = id
    · simpa [taskStore.Set, taskStore.Get, List.filter, hk] using ih
    · simpa [taskStore.Set, taskStore.Get, List.filter, List.find?, hk] using ih

lemma taskStore.Get_Delete_self (s : taskStore) (id : String) :
    (s.Delete id).Get id = none := by
  induction s with
  | nil => simp [taskStore.Delete, taskStore.Get, List.find?]
  | cons kv rest ih =>
    by_cases hk : kv.1 = id
    · simpa [taskStore.Delete, taskStore.Get, List.filter, hk] using ih
    · simpa [taskStore.Delete, taskStore.Get, List.filter, List.find?, hk] using ih

lemma roundEven53_of_le (n : Nat) (h : n ≤ 2 ^ 53) : roundEven53 n = n := by
  rcases Nat.lt_or_ge n (2 ^ 53) with hlt | hge
  · unfold roundEven53
    rw [if_pos hlt]
  · have heq : n = 2 ^ 53 := le_antisymm h hge
    subst heq
    decide

lemma memoryBytes_exact (m : Int) (h : m.natAbs ≤ 2 ^ 53) :
    memoryBytes m = m * 1048576 := by
  unfold memoryBytes
  rw [roundEven53_of_le _ h, Int.sign_mul_natAbs]
  norm_num

/-- Whether an initialization result is a success, as a boolean. -/
def exceptIsOk : Except String Container → Bool
  | .ok _ => true
  | .error _ => false

/-! ## The cleanup outcomes are never consulted

The source logs and discards the errors of `c.Stop` and `c.Destroy` during
the start-failure cleanup; accordingly no driver operation reads the
`stopErr`/`destroyErr` outcomes, which the following lemmas record. -/

section CleanupInvariance

variable (env : Env) (s1 s2 : Option String)

lemma lxcPath_cleanup_inv (d : Driver) :
    d.lxcPath { env with stopErr := s1, destroyErr := s2 } = d.lxcPath env := rfl

lemma setConfigItemE_cleanup_inv (c : Container) (k v : String) :
    setConfigItemE { env with stopErr := s1, destroyErr := s2 } c k v =
      setConfigItemE env c k v := rfl

lemma networkTypeConfigPfx_cleanup_inv :
    networkTypeConfigPfx { env with stopErr := s1, destroyErr := s2 } =
      networkTypeConfigPfx env := rfl

lemma formatMount_cleanup_inv (h t : String) (r : Bool) :
    formatMount { env with stopErr := s1, destroyErr := s2 } h t r =
      formatMount env h t r := rfl

lemma cleanupEvents_cleanup_inv :
    cleanupEvents { env with stopErr := s1, destroyErr := s2 } = cleanupEvents env := rfl

lemma setResourceLimits_cleanup_inv (cfg : DriversTaskConfig) :
    setResourceLimits { env with stopErr := s1, destroyErr := s2 } cfg =
      setResourceLimits env cfg := rfl

lemma setEnvItems_cleanup_inv (es : List String) : ∀ c : Container,
    setEnvItems { env with stopErr := s1, destroyErr := s2 } c es =
      setEnvItems env c es := by
  induction es with
  | nil => intro c; rfl
  | cons e rest ih =>
    intro c
    simp only [setEnvItems, setConfigItemE_cleanup_inv, ih]

lemma devicesCgroupEntries_cleanup_inv (ds : List DeviceConfig) :
    devicesCgroupEntries { env with stopErr := s1, destroyErr := s2 } ds =
      devicesCgroupEntries env ds := by
  induction ds with
  | nil => rfl
  | cons dv rest ih => simp only [devicesCgroupEntries, ih]

lemma setMountEntriesLoop_cleanup_inv (ms : List String) : ∀ c : Container,
    setMountEntriesLoop { env with stopErr := s1, destroyErr := s2 } c ms =
      setMountEntriesLoop env c ms := by
  induction ms with
  | nil => intro c; rfl
  | cons m rest ih =>
    intro c
    simp only [setMountEntriesLoop, setConfigItemE_cleanup_inv, ih]

lemma setCgroupDevLoop_cleanup_inv (ms : List String) : ∀ c : Container,
    setCgroupDevLoop { env with stopErr := s1, destroyErr := s2 } c ms =
      setCgroupDevLoop env c ms := by
  induction ms with
  | nil => intro c; rfl
  | cons m rest ih =>
    intro c
    simp only [setCgroupDevLoop, setConfigItemE_cleanup_inv, ih]

lemma formatTaskMounts_cleanup_inv (ms : List MountConfig) :
    formatTaskMounts { env with stopErr := s1, destroyErr := s2 } ms =
      formatTaskMounts env ms := by
  simp only [formatTaskMounts, formatMount_cleanup_inv]

lemma formatTaskDevices_cleanup_inv (ds : List DeviceConfig) :
    formatTaskDevices { env with stopErr := s1, destroyErr := s2 } ds =
      formatTaskDevices env ds := by
  simp only [formatTaskDevices, formatMount_cleanup_inv]

lemma mountEntries_cleanup_inv (d : Driver) (cfg : DriversTaskConfig) (tc : TaskConfig) :
    mountEntries { env with stopErr := s1, destroyErr := s2 } d cfg tc =
      mountEntries env d cfg tc := by
  simp only [mountEntries, formatTaskMounts_cleanup_inv, formatTaskDevices_cleanup_inv]

lemma configureContainerNetwork_cleanup_inv (d : Driver) (c : Container) (tc : TaskConfig) :
    configureContainerNetwork { env with stopErr := s1, destroyErr := s2 } d c tc =
      configureContainerNetwork env d c tc := by
  simp only [configureContainerNetwork, networkTypeConfigPfx_cleanup_inv,
    setConfigItemE_cleanup_inv]

lemma mountVolumes_cleanup_inv (d : Driver) (c : Container) (cfg : DriversTaskConfig)
    (tc : TaskConfig) :
    mountVolumes { env with stopErr := s1, destroyErr := s2 } d c cfg tc =
      mountVolumes env d c cfg tc := by
  simp only [mountVolumes, mountEntries_cleanup_inv, devicesCgroupEntries_cleanup_inv,
    setMountEntriesLoop_cleanup_inv, setCgroupDevLoop_cleanup_inv]

lemma initializeContainer_cleanup_inv (d : Driver) (cfg : DriversTaskConfig)
    (tc : TaskConfig) :
    initializeContainer { env with stopErr := s1, destroyErr := s2 } d cfg tc =
      initializeContainer env d cfg tc := by
  simp only [initializeContainer, lxcPath_cleanup_inv, setConfigItemE_cleanup_inv,
    setEnvItems_cleanup_inv]

lemma StartTask_cleanup_outcome_invariant (d : Driver) (cfg : DriversTaskConfig)
    (tc : TaskConfig) :
    StartTask { env with stopErr := s1, destroyErr := s2 } d cfg tc =
      StartTask env d cfg tc := by
  simp only [StartTask, initializeContainer_cleanup_inv, configureContainerNetwork_cleanup_inv,
    mountVolumes_cleanup_inv, setResourceLimits_cleanup_inv, cleanupEvents_cleanup_inv]

end CleanupInvariance

/-! ## Container-name preservation -/

lemma setEnvItems_name (env : Env) (es : List String) : ∀ c : Container,
    ((setEnvItems env c es).1).name = c.name := by
  induction es with
  | nil => intro c; rfl
  | cons e rest ih =>
    intro c
    simp only [setEnvItems, setConfigItemE]
    cases henv : env.setConfigItemErr "lxc.environment" e <;> simp [ih]

lemma initializeContainer_ok_name (env : Env) (d : Driver) (cfg : DriversTaskConfig)
    (tc : TaskConfig) (c : Container) (ev : List Event)
    (h : initializeContainer env d cfg tc = (.ok c, ev)) :
    c.name = cfg.Name ++ "-" ++ cfg.AllocID := by
  unfold initializeContainer at h
  cases hn : env.newContainerErr <;> simp only [hn] at h
  case some => simp at h
  cases hv : verbosityLevels tc.Verbosity <;> simp only [hv] at h
  case none => simp at h
  cases hl : logLevels tc.LogLevel <;> simp only [hl] at h
  case none => simp at h
  cases hsl : env.setLogLevelErr <;> simp only [hsl] at h
  case some => simp at h
  cases hsf : env.setLogFileErr <;> simp only [hsf] at h
  case some => simp at h
  simp only [setConfigItemE] at h
  cases hcg : env.setConfigItemErr "lxc.cgroup.dir" tc.Cgroup <;>
    cases hlc : env.loadConfigErr <;>
    simp [hcg, hlc] at h <;>
    rcases h with ⟨hc, hev⟩ <;>
    rw [← hc] <;>
    simp [setEnvItems_name]

lemma configureContainerNetwork_ok_name (env : Env) (d : Driver) (c c' : Container)
    (tc : TaskConfig) (ev : List Event)
    (h : configureContainerNetwork env d c tc = (.ok c', ev)) : c'.name = c.name := by
  unfold configureContainerNetwork at h
  by_cases hm1 : (if tc.NetworkMode = "" then d.config.NetworkMode else tc.NetworkMode) = "host"
  · simp only [hm1, if_pos, setConfigItemE] at h
    cases h1 : env.setConfigItemErr (networkTypeConfigPfx env ++ "type") "none" <;>
      simp [h1] at h
    rw [← h.1]
  · by_cases hm2 :
      (if tc.NetworkMode = "" then d.config.NetworkMode else tc.NetworkMode) = "bridge"
    · simp only [hm1, hm2, if_neg, if_pos, setConfigItemE] at h
      cases h1 : env.setConfigItemErr (networkTypeConfigPfx env ++ "type") "veth" <;>
        cases h2 : env.setConfigItemErr (networkTypeConfigPfx env ++ "link") "lxcbr0" <;>
        cases h3 : env.setConfigItemErr (networkTypeConfigPfx env ++ "flags") "up" <;>
        simp [h1, h2, h3] at h
      rw [← h.1]
    · simp only [hm1, hm2, if_neg] at h
      simp at h

lemma setMountEntriesLoop_ok_name (env : Env) (ms : List String) :
    ∀ (c c' : Container) (ev : List Event),
    setMountEntriesLoop env c ms = (.ok c', ev) → c'.name = c.name := by
  induction ms with
  | nil =>
    intro c c' ev h
    simp [setMountEntriesLoop] at h
    rw [← h.1]
  | cons m rest ih =>
    intro c c' ev h
    simp only [setMountEntriesLoop, setConfigItemE] at h
    cases h1 : env.setConfigItemErr "lxc.mount.entry" m <;> simp [h1] at h
    rcases hr : setMountEntriesLoop env
        { c with configItems := c.configItems ++ [("lxc.mount.entry", m)] } rest with ⟨rr, evr⟩
    rw [hr] at h
    cases rr <;> simp at h
    rcases h with ⟨h2, _⟩
    subst h2
    simpa using ih _ _ _ hr

lemma setCgroupDevLoop_ok_name (env : Env) (ms : List String) :
    ∀ (c c' : Container) (ev : List Event),
    setCgroupDevLoop env c ms = (.ok c', ev) → c'.name = c.name := by
  induction ms with
  | nil =>
    intro c c' ev h
    simp [setCgroupDevLoop] at h
    rw [← h.1]
  | cons m rest ih =>
    intro c c' ev h
    simp only [setCgroupDevLoop, setConfigItemE] at h
    cases h1 : env.setConfigItemErr "lxc.cgroup.devices.allow" m <;> simp [h1] at h
    rcases hr : setCgroupDevLoop env
        { c with configItems := c.configItems ++ [("lxc.cgroup.devices.allow", m)] } rest
        with ⟨rr, evr⟩
    rw [hr] at h
    cases rr <;> simp at h
    rcases h with ⟨h2, _⟩
    subst h2
    simpa using ih _ _ _ hr

lemma mountVolumes_ok_name (env : Env) (d : Driver) (c c' : Container)
    (cfg : DriversTaskConfig) (tc : TaskConfig) (ev : List Event)
    (h : mountVolumes env d c cfg tc = (.ok c', ev)) : c'.name = c.name := by
  unfold mountVolumes at h
  cases hme : mountEntries env d cfg tc <;> simp only [hme] at h
  case error => simp at h
  cases hde : devicesCgroupEntries env cfg.Devices <;> simp only [hde] at h
  case error => simp at h
  rcases hm1 : setMountEntriesLoop env c _ with ⟨rm, evm⟩
  rw [hm1] at h
  cases rm <;> simp at h
  case ok cm =>
  rcases hm2 : setCgroupDevLoop env cm _ with ⟨rc2, evc2⟩
  rw [hm2] at h
  cases rc2 <;> simp at h
  rcases h with ⟨h3, _⟩
  subst h3
  have e1 := setMountEntriesLoop_ok_name env _ _ _ _ hm1
  have e2 := setCgroupDevLoop_ok_name env _ _ _ _ hm2
  rw [e2, e1]

/-- The shape of a successful `StartTask` result: the returned plugin handle
carries the current handle version, the task configuration, and a persisted
`TaskState` naming the deterministic container name, the same task
configuration, and the start timestamp. -/
lemma StartTask_ok_driverState (env : Env) (d : Driver) (cfg : DriversTaskConfig)
    (tc : TaskConfig) (h : DriversTaskHandle)
    (hok : (StartTask env d cfg tc).1 = .ok h) :
    h.Version = taskHandleVersion ∧ h.Config = cfg ∧
    h.driverState =
      some (TaskState.mk cfg (cfg.Name ++ "-" ++ cfg.AllocID) env.now) := by
  unfold StartTask at hok
  cases hget : d.tasks.Get cfg.ID <;> simp only [hget] at hok
  case some => simp at hok
  cases hdec : env.decodeErr <;> simp only [hdec] at hok
  case some => simp at hok
  rcases hI : initializeContainer env d cfg tc with ⟨ri, evI⟩
  simp only [hI] at hok
  cases ri
  case error => simp at hok
  case ok c =>
  cases hcr : env.createErr <;> simp only [hcr] at hok
  case some => simp at hok
  rcases hN : configureContainerNetwork env d c tc with ⟨rn, evN⟩
  simp only [hN] at hok
  cases rn
  case error => simp at hok
  case ok c2 =>
  rcases hM : mountVolumes env d c2 cfg tc with ⟨rm, evM⟩
  simp only [hM] at hok
  cases rm
  case error => simp at hok
  case ok c3 =>
  cases hse : env.startExecuteErr <;> simp only [hse] at hok
  case some => simp at hok
  rcases hR : setResourceLimits env cfg with ⟨rr, evR⟩
  simp only [hR] at hok
  cases rr
  case error => simp at hok
  case ok u =>
  cases hds : env.setDriverStateErr <;> simp only [hds] at hok
  case some => simp at hok
  simp only [Except.ok.injEq] at hok
  subst hok
  have hname := initializeContainer_ok_name env d cfg tc c evI hI
  have hn2 := configureContainerNetwork_ok_name env d c c2 tc evN hN
  have hn3 := mountVolumes_ok_name env d c2 c3 cfg tc evM hM
  refine ⟨rfl, rfl, ?_⟩
  simp [hn3, hn2, hname]

/-! ## Concrete fixtures for the evaluations below -/

/-- A concrete task configuration. -/
def exCfg : DriversTaskConfig :=
  { ID := "task1", Name := "web", AllocID := "alloc1",
    Env := [("PATH", "/bin")],
    Resources := { MemoryMB := 256, CPUShares := 1024 },
    Mounts := [], Devices := [],
    TaskDir := { Dir := "/var/nomad/alloc/a1/web",
                 LocalDir := "/var/nomad/alloc/a1/web/local",
                 SharedAllocDir := "/var/nomad/alloc/a1/alloc",
                 SecretsDir := "/var/nomad/alloc/a1/web/secrets" } }

/-- A concrete per-task driver configuration. -/
def exTask : TaskConfig := { Template := "/usr/share/lxc/templates/lxc-busybox" }

/-- The environment in which every native call succeeds. -/
def exEnv : Env := {}

/-- A fresh driver with default configuration and an empty store. -/
def exDriver : Driver := { config := {}, tasks := [] }

/-- A driver whose configuration disables volume support. -/
def exDriverNoVol : Driver := { config := { AllowVolumes := false }, tasks := [] }

/-- A concrete container reference. -/
def exC : Container := { name := "web-alloc1", lxcpath := "/var/lib/lxc" }

/-- A concrete registered task handle. -/
def exTH : taskHandle :=
  { container := exC, initPid := 1, taskConfig := exCfg,
    procState := .Running, startedAt := 0 }

/-- A driver with `exTH` registered under `exCfg`'s task ID. -/
def exDriverReg : Driver := { config := {}, tasks := [("task1", exTH)] }

/-- A task configuration requesting 2^53 + 1 megabytes of memory. -/
def exCfgBig : DriversTaskConfig := { exCfg with
  Resources := { MemoryMB := 9007199254740993, CPUShares := 1024 } }

/-! ## Claim theorems -/

/-- C1: whenever `StartTask` returns an error, the task is not registered
(the store is unchanged); if the error arose after the container was
created, the trace ends with the rollback — stop if the container is
running, then destroy; and the returned error never depends on the
outcomes of the stop/destroy calls, whose failures are only logged. -/
theorem StartTask_rollback_on_post_create_failure (env : Env) (d : Driver)
    (cfg : DriversTaskConfig) (tc : TaskConfig) (e : String)
    (h : (StartTask env d cfg tc).1 = .error e) :
    (StartTask env d cfg tc).2.2 = d.tasks ∧
    (Event.create ∈ (StartTask env d cfg tc).2.1 →
      ∃ pre, (StartTask env d cfg tc).2.1 = pre ++ cleanupEvents env) ∧
    (∀ s1 s2 : Option String,
      (StartTask { env with stopErr := s1, destroyErr := s2 } d cfg tc).1 = .error e) := by
  refine ⟨?_, ?_, fun s1 s2 => by
    rw [StartTask_cleanup_outcome_invariant]; exact h⟩ <;>
  · unfold StartTask at h ⊢
    cases hget : d.tasks.Get cfg.ID
    case some v => simp [hget]
    case none =>
    simp only [hget] at h ⊢
    cases hdec : env.decodeErr
    case some ed => simp [hdec]
    case none =>
    simp only [hdec] at h ⊢
    rcases hI : initializeContainer env d cfg tc with ⟨ri, evI⟩
    have hcm := create_not_mem_initializeContainer env d cfg tc
    rw [hI] at hcm
    simp only [hI] at h ⊢
    cases ri
    case error eI => simp at hcm; simp [hcm]
    case ok c =>
    cases hcr : env.createErr
    case some ec => simp at hcm; simp [hcr, hcm]
    case none =>
    simp only [hcr] at h ⊢
    rcases hN : configureContainerNetwork env d c tc with ⟨rn, evN⟩
    simp only [hN] at h ⊢
    cases rn
    case error eN =>
      first
      | rfl
      | exact fun _ => ⟨evI ++ [Event.create] ++ evN, rfl⟩
    case ok c2 =>
    rcases hM : mountVolumes env d c2 cfg tc with ⟨rm, evM⟩
    simp only [hM] at h ⊢
    cases rm
    case error eM =>
      first
      | rfl
      | exact fun _ => ⟨evI ++ [Event.create] ++ evN ++ evM, rfl⟩
    case ok c3 =>
    cases hse : env.startExecuteErr
    case some es =>
      simp only [hse] at h ⊢
      all_goals
        first
        | rfl
        | exact fun _ =>
            ⟨evI ++ [Event.create] ++ evN ++ evM ++ [Event.startExecute tc.Command], rfl⟩
    case none =>
    simp only [hse] at h ⊢
    rcases hR : setResourceLimits env cfg with ⟨rr, evR⟩
    simp only [hR] at h ⊢
    cases rr
    case error eR =>
      first
      | rfl
      | exact fun _ =>
          ⟨evI ++ [Event.create] ++ evN ++ evM ++ [Event.startExecute tc.Command] ++ evR, rfl⟩
    case ok u =>
    cases hds : env.setDriverStateErr
    case some eds =>
      simp only [hds] at h ⊢
      all_goals
        first
        | rfl
        | exact fun _ =>
            ⟨evI ++ [Event.create] ++ evN ++ evM ++ [Event.startExecute tc.Command] ++ evR ++
              [Event.setDriverState], rfl⟩
    case none =>
    simp only [hds] at h
    exact absurd h (by simp)

/-- Witness for C1: a start whose init process fails to launch is rolled
back and leaves the store empty. -/
theorem StartTask_rollback_on_post_create_failure_witness :
    (StartTask { exEnv with startExecuteErr := some "boom" } exDriver exCfg exTask).2.2 =
      exDriver.tasks ∧
    (Event.create ∈
        (StartTask { exEnv with startExecuteErr := some "boom" } exDriver exCfg exTask).2.1 →
      ∃ pre,
        (StartTask { exEnv with startExecuteErr := some "boom" } exDriver exCfg exTask).2.1 =
          pre ++ cleanupEvents { exEnv with startExecuteErr := some "boom" }) ∧
    (∀ s1 s2 : Option String,
      (StartTask { { exEnv with startExecuteErr := some "boom" } with
          stopErr := s1, destroyErr := s2 } exDriver exCfg exTask).1 =
        .error "unable to start container: err boom") :=
  StartTask_rollback_on_post_create_failure _ exDriver exCfg exTask _ (by decide)

/-- C2: with volume support disabled an absolute volume source, or a
relative source whose resolution escapes the task directory, makes
`mountEntries` fail; with volume support enabled both are accepted and the
planned entry appears in the output. -/
theorem mountEntries_volume_policy (env : Env) (d : Driver) (cfg : DriversTaskConfig)
    (tc : TaskConfig) (volDesc src tgt mode ty : String) (rest : List String)
    (hsplit : splitOnChar ':' volDesc = src :: tgt :: mode :: ty :: rest)
    (hvols : tc.Volumes = [volDesc]) :
    (d.config.AllowVolumes = false → goIsAbs src = true →
      mountEntries env d cfg tc =
        .error "absolute bind-mount volume in config but volumes are disabled") ∧
    (d.config.AllowVolumes = false → goIsAbs src = false →
      pathEscapesSandbox cfg.TaskDir.Dir (goJoin cfg.TaskDir.Dir src) = true →
      mountEntries env d cfg tc =
        .error "bind-mount path escapes task directory but volumes are disabled") ∧
    (d.config.AllowVolumes = true →
      ∃ ms, mountEntries env d cfg tc = .ok ms ∧
        (if goIsAbs src then src else goJoin cfg.TaskDir.Dir src) ++ " " ++
          trimLeftSlashes tgt ++ " none " ++ mode ++ ",bind,create=" ++ ty ∈ ms) := by
  refine ⟨fun hdis habs => ?_, fun hdis habs hesc => ?_, fun hen => ?_⟩
  · simp [mountEntries, volumeMounts, hvols, hsplit, hdis, habs]
  · simp [mountEntries, volumeMounts, hvols, hsplit, hdis, habs, hesc]
  · cases habs : goIsAbs src <;>
      simp [mountEntries, volumeMounts, hvols, hsplit, hen, habs]

/-- Witness for C2 at the volume string `"../escape:data:rw:dir"` under a
driver with volumes disabled. -/
theorem mountEntries_volume_policy_witness :
    (exDriverNoVol.config.AllowVolumes = false → goIsAbs "../escape" = true →
      mountEntries exEnv exDriverNoVol exCfg { exTask with Volumes := ["../escape:data:rw:dir"] } =
        .error "absolute bind-mount volume in config but volumes are disabled") ∧
    (exDriverNoVol.config.AllowVolumes = false → goIsAbs "../escape" = false →
      pathEscapesSandbox exCfg.TaskDir.Dir (goJoin exCfg.TaskDir.Dir "../escape") = true →
      mountEntries exEnv exDriverNoVol exCfg { exTask with Volumes := ["../escape:data:rw:dir"] } =
        .error "bind-mount path escapes task directory but volumes are disabled") ∧
    (exDriverNoVol.config.AllowVolumes = true →
      ∃ ms, mountEntries exEnv exDriverNoVol exCfg
          { exTask with Volumes := ["../escape:data:rw:dir"] } = .ok ms ∧
        (if goIsAbs "../escape" then "../escape"
         else goJoin exCfg.TaskDir.Dir "../escape") ++ " " ++
          trimLeftSlashes "data" ++ " none " ++ "rw" ++ ",bind,create=" ++ "dir" ∈ ms) :=
  mountEntries_volume_policy exEnv exDriverNoVol exCfg _ "../escape:data:rw:dir"
    "../escape" "data" "rw" "dir" [] (by decide) (by decide)

/-- Counterexample for C3 as stated: at a memory request of 2^53 + 1
megabytes the `float64` conversion inside `lxc.ByteSize` rounds, so the
value offered to `memory.max` is not exactly M * 1048576. -/
theorem setResourceLimits_exact_conversion_cex :
    memoryBytes 9007199254740993 ≠ 9007199254740993 * 1048576 ∧
    (setResourceLimits exEnv exCfgBig).2.head? ≠
      some (Event.setCgroupItem "memory.max"
        (toString ((9007199254740993 : Int) * 1048576))) ∧
    (setResourceLimits exEnv exCfgBig).2.head? =
      some (Event.setCgroupItem "memory.max"
        (toString (memoryBytes 9007199254740993))) := by
  refine ⟨by decide, by decide, by decide⟩

/-- C3 (amended: for memory requests of at most 2^53 megabytes, where the
`float64` conversion is exact): the byte value equals M * 1048576,
`memory.max` is attempted first with that value, on failure the legacy
memory-limit call receives the identical byte count and failure of both is
fatal; CPU shares go to `cpu.weight` first and on failure to `cpu.shares`
with the identical value, failure of both being fatal. -/
theorem setResourceLimits_fallback (env : Env) (cfg : DriversTaskConfig)
    (hM : cfg.Resources.MemoryMB.natAbs ≤ 2 ^ 53) :
    (memoryBytes cfg.Resources.MemoryMB = cfg.Resources.MemoryMB * 1048576) ∧
    ((setResourceLimits env cfg).2.head? =
      some (Event.setCgroupItem "memory.max"
        (toString (cfg.Resources.MemoryMB * 1048576)))) ∧
    (env.setCgroupItemErr "memory.max" (toString (cfg.Resources.MemoryMB * 1048576)) ≠ none →
      (setResourceLimits env cfg).2.take 2 =
        [Event.setCgroupItem "memory.max" (toString (cfg.Resources.MemoryMB * 1048576)),
         Event.setMemoryLimit (cfg.Resources.MemoryMB * 1048576)]) ∧
    (∀ e e2,
      env.setCgroupItemErr "memory.max" (toString (cfg.Resources.MemoryMB * 1048576)) = some e →
      env.setMemoryLimitErr = some e2 →
      (setResourceLimits env cfg).1 = .error ("unable to set memory limits: " ++ e2)) ∧
    (env.setCgroupItemErr "memory.max" (toString (cfg.Resources.MemoryMB * 1048576)) = none →
      env.setCgroupItemErr "cpu.weight" (toString cfg.Resources.CPUShares) ≠ none →
      (setResourceLimits env cfg).2 =
        [Event.setCgroupItem "memory.max" (toString (cfg.Resources.MemoryMB * 1048576)),
         Event.setCgroupItem "cpu.weight" (toString cfg.Resources.CPUShares),
         Event.setCgroupItem "cpu.shares" (toString cfg.Resources.CPUShares)]) ∧
    (∀ e e2,
      env.setCgroupItemErr "memory.max" (toString (cfg.Resources.MemoryMB * 1048576)) = none →
      env.setCgroupItemErr "cpu.weight" (toString cfg.Resources.CPUShares) = some e →
      env.setCgroupItemErr "cpu.shares" (toString cfg.Resources.CPUShares) = some e2 →
      (setResourceLimits env cfg).1 = .error ("unable to set cpu shares: " ++ e2)) ∧
    (env.setCgroupItemErr "memory.max" (toString (cfg.Resources.MemoryMB * 1048576)) = none →
      env.setCgroupItemErr "cpu.weight" (toString cfg.Resources.CPUShares) = none →
      (setResourceLimits env cfg).1 = .ok ()) := by
  have hmb := memoryBytes_exact cfg.Resources.MemoryMB hM
  refine ⟨hmb, ?_, ?_, ?_, ?_, ?_, ?_⟩
  · cases hmm : env.setCgroupItemErr "memory.max" (toString (cfg.Resources.MemoryMB * 1048576)) <;>
      cases hml : env.setMemoryLimitErr <;>
      cases hcw : env.setCgroupItemErr "cpu.weight" (toString cfg.Resources.CPUShares) <;>
      cases hcs : env.setCgroupItemErr "cpu.shares" (toString cfg.Resources.CPUShares) <;>
      simp [setResourceLimits, hmb, hmm, hml, hcw, hcs]
  · intro hne
    cases hmm : env.setCgroupItemErr "memory.max" (toString (cfg.Resources.MemoryMB * 1048576))
    · simp [hmm] at hne
    · cases hml : env.setMemoryLimitErr <;>
        cases hcw : env.setCgroupItemErr "cpu.weight" (toString cfg.Resources.CPUShares) <;>
        cases hcs : env.setCgroupItemErr "cpu.shares" (toString cfg.Resources.CPUShares) <;>
        simp [setResourceLimits, hmb, hmm, hml, hcw, hcs]
  · intro e e2 hmm hml
    simp [setResourceLimits, hmb, hmm, hml]
  · intro hmm hcw
    cases hcw2 : env.setCgroupItemErr "cpu.weight" (toString cfg.Resources.CPUShares) <;>
      cases hcs : env.setCgroupItemErr "cpu.shares" (toString cfg.Resources.CPUShares)
    · simp [hcw2] at hcw
    · simp [hcw2] at hcw
    · simp [setResourceLimits, hmb, hmm, hcw2, hcs]
    · simp [setResourceLimits, hmb, hmm, hcw2, hcs]
  · intro e e2 hmm hcw hcs
    simp [setResourceLimits, hmb, hmm, hcw, hcs]
  · intro hmm hcw
    simp [setResourceLimits, hmb, hmm, hcw]

/-- Witness for C3 at the spec's concrete scenario: 256 MB becomes the
byte value 268435456 offered to `memory.max` first. -/
theorem setResourceLimits_fallback_witness :
    memoryBytes 256 = 256 * 1048576 ∧
    (setResourceLimits exEnv exCfg).2.head? =
      some (Event.setCgroupItem "memory.max" (toString ((256 : Int) * 1048576))) ∧
    toString ((256 : Int) * 1048576) = "268435456" :=
  ⟨(setResourceLimits_fallback exEnv exCfg (by decide)).1,
   (setResourceLimits_fallback exEnv exCfg (by decide)).2.1,
   by decide⟩

/-- Counterexample for C4 as stated: a task whose network mode is the
undefined value `"qwe"` makes `StartTask` fail only AFTER the container has
been created (the trace records the creation and the rollback destroy), so
the failure is not "before any container is created". -/
theorem StartTask_validation_before_create_cex :
    (StartTask exEnv exDriver exCfg { exTask with NetworkMode := "qwe" }).1 =
      .error "Network mode is undefined" ∧
    Event.create ∈ (StartTask exEnv exDriver exCfg { exTask with NetworkMode := "qwe" }).2.1 ∧
    Event.destroy ∈ (StartTask exEnv exDriver exCfg { exTask with NetworkMode := "qwe" }).2.1 := by
  refine ⟨by decide, by decide, by decide⟩

/-- C4 (amended): bad verbosity or log-level enum values fail `StartTask`
before any container is created and leave the store untouched; undefined
network modes and mount-planning failures (disabled-volume violations and
sandbox escapes) are detected only after the container is created and fail
`StartTask` with rollback. -/
theorem StartTask_validation_phases (env : Env) (d : Driver)
    (cfg : DriversTaskConfig) (tc : TaskConfig)
    (hfresh : d.tasks.Get cfg.ID = none)
    (hdec : env.decodeErr = none)
    (hnew : env.newContainerErr = none)
    (hll : env.setLogLevelErr = none)
    (hlf : env.setLogFileErr = none)
    (hcr : env.createErr = none)
    (hsc : ∀ k v, env.setConfigItemErr k v = none) :
    (verbosityLevels tc.Verbosity = none →
      (StartTask env d cfg tc).1 =
        .error "lxc driver config 'verbosity' can only be either quiet or verbose" ∧
      Event.create ∉ (StartTask env d cfg tc).2.1 ∧
      (StartTask env d cfg tc).2.2 = d.tasks) ∧
    (∀ v, verbosityLevels tc.Verbosity = some v → logLevels tc.LogLevel = none →
      (StartTask env d cfg tc).1 =
        .error "lxc driver config 'log_level' can only be trace, debug, info, warn or error" ∧
      Event.create ∉ (StartTask env d cfg tc).2.1 ∧
      (StartTask env d cfg tc).2.2 = d.tasks) ∧
    (∀ v lv, verbosityLevels tc.Verbosity = some v → logLevels tc.LogLevel = some lv →
      (if tc.NetworkMode = "" then d.config.NetworkMode else tc.NetworkMode) ≠ "host" →
      (if tc.NetworkMode = "" then d.config.NetworkMode else tc.NetworkMode) ≠ "bridge" →
      (StartTask env d cfg tc).1 = .error "Network mode is undefined" ∧
      Event.create ∈ (StartTask env d cfg tc).2.1 ∧
      Event.destroy ∈ (StartTask env d cfg tc).2.1 ∧
      (StartTask env d cfg tc).2.2 = d.tasks) ∧
    (∀ v lv em, verbosityLevels tc.Verbosity = some v → logLevels tc.LogLevel = some lv →
      ((if tc.NetworkMode = "" then d.config.NetworkMode else tc.NetworkMode) = "host" ∨
       (if tc.NetworkMode = "" then d.config.NetworkMode else tc.NetworkMode) = "bridge") →
      mountEntries env d cfg tc = .error em →
      (StartTask env d cfg tc).1 = .error em ∧
      Event.create ∈ (StartTask env d cfg tc).2.1 ∧
      Event.destroy ∈ (StartTask env d cfg tc).2.1 ∧
      (StartTask env d cfg tc).2.2 = d.tasks) := by
  refine ⟨fun hv => ?_, fun v hv hl => ?_, fun v lv hv hl h1 h2 => ?_,
    fun v lv em hv hl hm hme => ?_⟩
  · simp [StartTask, hfresh, hdec, initializeContainer, hnew, hv]
  · simp [StartTask, hfresh, hdec, initializeContainer, hnew, hv, hl]
  · simp [StartTask, hfresh, hdec, initializeContainer, hnew, hv, hl, hll, hlf, hcr,
      setConfigItemE, hsc, setEnvItems_trace, configureContainerNetwork, h1, h2,
      cleanupEvents]
  · rcases hm with hm | hm <;>
      simp [StartTask, hfresh, hdec, initializeContainer, hnew, hv, hl, hll, hlf, hcr,
        setConfigItemE, hsc, setEnvItems_trace, configureContainerNetwork, hm,
        mountVolumes, hme, cleanupEvents]

/-- Witness for C4: an absolute volume source under a disabled-volume
driver fails the start after the container was created, with rollback. -/
theorem StartTask_validation_phases_witness :
    (StartTask exEnv exDriverNoVol exCfg { exTask with Volumes := ["/abs:data:rw:dir"] }).1 =
      .error "absolute bind-mount volume in config but volumes are disabled" ∧
    Event.create ∈
      (StartTask exEnv exDriverNoVol exCfg { exTask with Volumes := ["/abs:data:rw:dir"] }).2.1 ∧
    Event.destroy ∈
      (StartTask exEnv exDriverNoVol exCfg { exTask with Volumes := ["/abs:data:rw:dir"] }).2.1 ∧
    (StartTask exEnv exDriverNoVol exCfg
        { exTask with Volumes := ["/abs:data:rw:dir"] }).2.2 = exDriverNoVol.tasks :=
  (StartTask_validation_phases exEnv exDriverNoVol exCfg _ (by decide) rfl rfl rfl rfl rfl
      (fun _ _ => rfl)).2.2.2 Verbosity.Quiet LogLevel.ERROR
    "absolute bind-mount volume in config but volumes are disabled"
    rfl rfl (Or.inr (by decide)) (by decide)

/-- C5: `configureContainerNetwork` resolves the mode as the task-level
value when non-empty else the driver default; `host` sets the network type
directive to `none`; `bridge` sets type `veth`, link `lxcbr0` and flags
`up`; any other resolved mode (including the empty string) is the error
"Network mode is undefined" with no directives applied. -/
theorem configureContainerNetwork_modes (env : Env) (d : Driver) (c : Container)
    (tc : TaskConfig)
    (hok : ∀ k v, env.setConfigItemErr k v = none) :
    ((if tc.NetworkMode = "" then d.config.NetworkMode else tc.NetworkMode) = "host" →
      configureContainerNetwork env d c tc =
        (.ok { c with configItems := c.configItems ++
            [(networkTypeConfigPfx env ++ "type", "none")] },
         [Event.setConfigItem (networkTypeConfigPfx env ++ "type") "none"])) ∧
    ((if tc.NetworkMode = "" then d.config.NetworkMode else tc.NetworkMode) = "bridge" →
      configureContainerNetwork env d c tc =
        (.ok { c with configItems := c.configItems ++
            [(networkTypeConfigPfx env ++ "type", "veth"),
             (networkTypeConfigPfx env ++ "link", "lxcbr0"),
             (networkTypeConfigPfx env ++ "flags", "up")] },
         [Event.setConfigItem (networkTypeConfigPfx env ++ "type") "veth",
          Event.setConfigItem (networkTypeConfigPfx env ++ "link") "lxcbr0",
          Event.setConfigItem (networkTypeConfigPfx env ++ "flags") "up"])) ∧
    ((if tc.NetworkMode = "" then d.config.NetworkMode else tc.NetworkMode) ≠ "host" →
     (if tc.NetworkMode = "" then d.config.NetworkMode else tc.NetworkMode) ≠ "bridge" →
      configureContainerNetwork env d c tc = (.error "Network mode is undefined", [])) := by
  refine ⟨fun h => ?_, fun h => ?_, fun h1 h2 => ?_⟩
  · simp [configureContainerNetwork, setConfigItemE, hok, h]
  · simp [configureContainerNetwork, setConfigItemE, hok, h]
  · simp [configureContainerNetwork, setConfigItemE, hok, h1, h2]

/-- Witness for C5: with no task-level mode the driver default `bridge`
produces the three veth directives. -/
theorem configureContainerNetwork_modes_witness :
    configureContainerNetwork exEnv exDriver exC exTask =
      (.ok { exC with configItems := exC.configItems ++
          [(networkTypeConfigPfx exEnv ++ "type", "veth"),
           (networkTypeConfigPfx exEnv ++ "link", "lxcbr0"),
           (networkTypeConfigPfx exEnv ++ "flags", "up")] },
       [Event.setConfigItem (networkTypeConfigPfx exEnv ++ "type") "veth",
        Event.setConfigItem (networkTypeConfigPfx exEnv ++ "link") "lxcbr0",
        Event.setConfigItem (networkTypeConfigPfx exEnv ++ "flags") "up"]) :=
  (configureContainerNetwork_modes exEnv exDriver exC exTask (fun _ _ => rfl)).2.1 (by decide)

/-- Counterexample for C6 as stated: in a successful initialization the
base configuration file is loaded as the LAST native call — after the
cgroup-directory directive (and every other task-specific setting) has
already been applied — not before them. -/
theorem initializeContainer_load_order_cex :
    Event.setConfigItem "lxc.cgroup.dir" exTask.Cgroup ∈
      (initializeContainer exEnv exDriver exCfg exTask).2.dropLast ∧
    (initializeContainer exEnv exDriver exCfg exTask).2.getLast? =
      some (Event.loadConfigFile "/etc/lxc/default.conf") := by
  refine ⟨by decide, by decide⟩

/-- C6 (amended): during a successful container initialization the
task-specific settings (verbosity, log level, log file, cgroup directory,
environment directives) are applied FIRST, and the base/default
configuration file (task-specific path if given, else the global fallback)
is loaded last, as the final native call of the initialization. -/
theorem initializeContainer_loads_config_last (env : Env) (d : Driver)
    (cfg : DriversTaskConfig) (tc : TaskConfig) (v : Verbosity) (lv : LogLevel)
    (hnew : env.newContainerErr = none)
    (hv : verbosityLevels tc.Verbosity = some v)
    (hl : logLevels tc.LogLevel = some lv)
    (hll : env.setLogLevelErr = none)
    (hlf : env.setLogFileErr = none) :
    (initializeContainer env d cfg tc).2 =
      ([Event.newContainer (cfg.Name ++ "-" ++ cfg.AllocID) (d.lxcPath env),
        Event.setVerbosity v, Event.setLogLevel lv,
        Event.setLogFile (goJoin cfg.TaskDir.Dir (cfg.Name ++ "-lxc.log")),
        Event.setConfigItem "lxc.cgroup.dir" tc.Cgroup] ++
       tc.Environment.map (fun e => Event.setConfigItem "lxc.environment" e) ++
       (cfg.Env.map (fun kv => kv.1 ++ "=" ++ kv.2)).map
         (fun e => Event.setConfigItem "lxc.environment" e)) ++
      [Event.loadConfigFile
        (if tc.DefaultConfig = "" then d.config.DefaultConfig else tc.DefaultConfig)] := by
  simp [initializeContainer, hnew, hv, hl, hll, hlf, setConfigItemE, setEnvItems_trace]

/-- Witness for C6 (amended) at the concrete fixtures. -/
theorem initializeContainer_loads_config_last_witness :
    (initializeContainer exEnv exDriver exCfg exTask).2 =
      ([Event.newContainer (exCfg.Name ++ "-" ++ exCfg.AllocID) (exDriver.lxcPath exEnv),
        Event.setVerbosity Verbosity.Quiet, Event.setLogLevel LogLevel.ERROR,
        Event.setLogFile (goJoin exCfg.TaskDir.Dir (exCfg.Name ++ "-lxc.log")),
        Event.setConfigItem "lxc.cgroup.dir" exTask.Cgroup] ++
       exTask.Environment.map (fun e => Event.setConfigItem "lxc.environment" e) ++
       (exCfg.Env.map (fun kv => kv.1 ++ "=" ++ kv.2)).map
         (fun e => Event.setConfigItem "lxc.environment" e)) ++
      [Event.loadConfigFile
        (if exTask.DefaultConfig = "" then exDriver.config.DefaultConfig
         else exTask.DefaultConfig)] :=
  initializeContainer_loads_config_last exEnv exDriver exCfg exTask
    Verbosity.Quiet LogLevel.ERROR rfl rfl rfl rfl rfl

/-- Counterexample for C7 as stated: the empty verbosity string is outside
the claimed set `{quiet, verbose}` yet `initializeContainer` accepts it (it
maps to the runtime's quiet default), so "error exactly when outside the
set" is false. -/
theorem initializeContainer_enum_default_cex :
    exceptIsOk (initializeContainer exEnv exDriver exCfg exTask).1 = true ∧
    exTask.Verbosity = "" ∧
    ("" : String) ≠ "quiet" ∧ ("" : String) ≠ "verbose" := by
  refine ⟨by decide, rfl, by decide, by decide⟩

/-- C7 (amended: the accepted sets also contain the empty string, mapped to
the defaults quiet/ERROR): under benign runtime calls,
`initializeContainer` returns the verbosity validation error exactly when
the verbosity is outside `{"", quiet, verbose}`, the log-level validation
error exactly when the verbosity is accepted and the log level is outside
`{"", trace, debug, info, warn, error}`, and succeeds exactly when both are
accepted. -/
theorem initializeContainer_enum_validation (env : Env) (d : Driver)
    (cfg : DriversTaskConfig) (tc : TaskConfig)
    (hnew : env.newContainerErr = none)
    (hll : env.setLogLevelErr = none)
    (hlf : env.setLogFileErr = none) :
    (((initializeContainer env d cfg tc).1 =
        .error "lxc driver config 'verbosity' can only be either quiet or verbose")
      ↔ tc.Verbosity ∉ (["", "quiet", "verbose"] : List String)) ∧
    (((initializeContainer env d cfg tc).1 =
        .error "lxc driver config 'log_level' can only be trace, debug, info, warn or error")
      ↔ (tc.Verbosity ∈ (["", "quiet", "verbose"] : List String) ∧
         tc.LogLevel ∉ (["", "trace", "debug", "info", "warn", "error"] : List String))) ∧
    (exceptIsOk (initializeContainer env d cfg tc).1 = true
      ↔ (tc.Verbosity ∈ (["", "quiet", "verbose"] : List String) ∧
         tc.LogLevel ∈ (["", "trace", "debug", "info", "warn", "error"] : List String))) := by
  have hvm := verbosityLevels_eq_none tc.Verbosity
  have hlm := logLevels_eq_none tc.LogLevel
  cases hv : verbosityLevels tc.Verbosity <;> cases hl : logLevels tc.LogLevel <;>
    simp [hv, hl] at hvm hlm <;>
    simp [initializeContainer, hnew, hll, hlf, hv, hl, setConfigItemE, exceptIsOk,
      hvm, hlm] <;>
    tauto

/-- Witness for C7 (amended) at an invalid verbosity value. -/
theorem initializeContainer_enum_validation_witness :
    (((initializeContainer exEnv exDriver exCfg
          { exTask with Verbosity := "loud", LogLevel := "nope" }).1 =
        .error "lxc driver config 'verbosity' can only be either quiet or verbose")
      ↔ ("loud" : String) ∉ (["", "quiet", "verbose"] : List String)) ∧
    (((initializeContainer exEnv exDriver exCfg
          { exTask with Verbosity := "loud", LogLevel := "nope" }).1 =
        .error "lxc driver config 'log_level' can only be trace, debug, info, warn or error")
      ↔ (("loud" : String) ∈ (["", "quiet", "verbose"] : List String) ∧
         ("nope" : String) ∉ (["", "trace", "debug", "info", "warn", "error"] : List String))) ∧
    (exceptIsOk (initializeContainer exEnv exDriver exCfg
          { exTask with Verbosity := "loud", LogLevel := "nope" }).1 = true
      ↔ (("loud" : String) ∈ (["", "quiet", "verbose"] : List String) ∧
         ("nope" : String) ∈ (["", "trace", "debug", "info", "warn", "error"] : List String))) :=
  initializeContainer_enum_validation exEnv exDriver exCfg
    { exTask with Verbosity := "loud", LogLevel := "nope" } rfl rfl rfl

/-- C8: the `TaskState` persisted by a successful `StartTask` (container
name, task config, start timestamp), decoded by `RecoverTask` on a fresh
driver, yields a registered task handle whose container name, task
configuration and start timestamp equal the originals and whose lifecycle
state is `Running`. -/
theorem start_recover_roundtrip (env env2 : Env) (d d2 : Driver)
    (cfg : DriversTaskConfig) (tc : TaskConfig) (h : DriversTaskHandle)
    (hstart : (StartTask env d cfg tc).1 = .ok h)
    (hfresh2 : d2.tasks.Get cfg.ID = none)
    (hnew2 : env2.newContainerErr = none) :
    (RecoverTask env2 d2 (some h)).1 = .ok ∧
    ((RecoverTask env2 d2 (some h)).2.2).Get cfg.ID =
      some { container := { name := cfg.Name ++ "-" ++ cfg.AllocID,
                            lxcpath := d2.lxcPath env2 },
             initPid := env2.initPid, taskConfig := cfg,
             procState := .Running, startedAt := env.now } := by
  obtain ⟨hver, hcfg, hds⟩ := StartTask_ok_driverState env d cfg tc h hstart
  unfold RecoverTask
  simp [hver, taskHandleVersion, hcfg, hfresh2, hds, hnew2, taskStore.Get_Set_self]

/-- Witness for C8: the handle produced by a concrete successful start,
recovered on a fresh driver, registers a `Running` handle with the original
container name, task configuration and start time. -/
theorem start_recover_roundtrip_witness :
    (RecoverTask exEnv exDriver (some ⟨taskHandleVersion, exCfg,
        some ⟨exCfg, "web-alloc1", 0⟩⟩)).1 = .ok ∧
    ((RecoverTask exEnv exDriver (some ⟨taskHandleVersion, exCfg,
        some ⟨exCfg, "web-alloc1", 0⟩⟩)).2.2).Get exCfg.ID =
      some { container := { name := exCfg.Name ++ "-" ++ exCfg.AllocID,
                            lxcpath := exDriver.lxcPath exEnv },
             initPid := exEnv.initPid, taskConfig := exCfg,
             procState := .Running, startedAt := exEnv.now } :=
  start_recover_roundtrip exEnv exEnv exDriver exDriver exCfg exTask
    ⟨taskHandleVersion, exCfg, some ⟨exCfg, "web-alloc1", 0⟩⟩
    (by decide) (by decide) rfl

/-- C9: recovering a handle whose task ID is already registered returns
success immediately, constructs no container reference (empty trace) and
leaves the store untouched. -/
theorem RecoverTask_idempotent (env : Env) (d : Driver) (handle : DriversTaskHandle)
    (hver : handle.Version = taskHandleVersion)
    (hreg : d.tasks.Get handle.Config.ID ≠ none) :
    RecoverTask env d (some handle) = (.ok, [], d.tasks) := by
  cases hget : d.tasks.Get handle.Config.ID with
  | none => exact absurd hget hreg
  | some h0 => simp [RecoverTask, hver, taskHandleVersion, hget]

/-- Witness for C9 at a driver that already holds the task. -/
theorem RecoverTask_idempotent_witness :
    RecoverTask exEnv exDriverReg
        (some ⟨taskHandleVersion, exCfg, none⟩) = (.ok, [], exDriverReg.tasks) :=
  RecoverTask_idempotent exEnv exDriverReg ⟨taskHandleVersion, exCfg, none⟩
    rfl (by decide)

/-- C10: `DestroyTask` on a registered task that is not running (or with
force set) removes the store entry and returns success regardless of the
shutdown/destroy outcomes, which are never consulted; on a running task
without force it returns an error and leaves the store unchanged. -/
theorem DestroyTask_removes_entry (env : Env) (d : Driver) (taskID : String)
    (force : Bool) (hreg : d.tasks.Get taskID ≠ none) :
    ((env.handleRunning = false ∨ force = true) →
      DestroyTask env d taskID force =
        (.ok (), (if env.handleRunning then [Event.shutdown] else []) ++ [Event.destroy],
         d.tasks.Delete taskID) ∧
      (d.tasks.Delete taskID).Get taskID = none) ∧
    (env.handleRunning = true → force = false →
      DestroyTask env d taskID force = (.error "cannot destroy running task", [], d.tasks)) ∧
    (∀ s1 s2 : Option String,
      DestroyTask { env with shutdownErr := s1, destroyErr := s2 } d taskID force =
        DestroyTask env d taskID force) := by
  cases hget : d.tasks.Get taskID with
  | none => exact absurd hget hreg
  | some h0 =>
    refine ⟨fun hnr => ?_, fun hr hnf => ?_, fun s1 s2 => rfl⟩
    · rcases hnr with hnr | hnr <;>
        simp [DestroyTask, hget, hnr, taskStore.Get_Delete_self]
    · simp [DestroyTask, hget, hr, hnf]

/-- Witness for C10: destroying the registered, not-running task removes
its entry and succeeds. -/
theorem DestroyTask_removes_entry_witness :
    DestroyTask exEnv exDriverReg "task1" false =
      (.ok (), (if exEnv.handleRunning then [Event.shutdown] else []) ++ [Event.destroy],
       exDriverReg.tasks.Delete "task1") ∧
    (exDriverReg.tasks.Delete "task1").Get "task1" = none :=
  (DestroyTask_removes_entry exEnv exDriverReg "task1" false (by decide)).1 (Or.inl rfl)

end NomadLXC
